import Mathlib

/-!
Verification of the OpenAPI v2 surface-model builder
(plugins/gnostic-go-generator/surface/model_openapiv2.go).

The Go file translates an OpenAPI v2 document object graph into a
language-neutral intermediate model (Model / Type / Field / Method).
This development embeds the document grammar and the builder functions
and proves the testable properties of the specification against them.

Only the document fields that the builder reads are embedded.  Go nil
pointers become Option; a Go nil-pointer dereference (a panic) is
modelled as the value none of an Option-returning function.
-/

namespace Gnostic

/-- The oneof carried by an additional-properties clause of a schema:
either a sub-schema or a boolean.  Parameterized so that Schema can nest it. -/
inductive SchemaOrBool (S : Type) where
  | schema (s : S)
  | boolean (b : Bool)

/-- Generated-getter GetSchema of the additional-properties oneof: the
sub-schema when the schema arm is set, none (Go nil) on the boolean arm. -/
def SchemaOrBool.getSchema {S : Type} : SchemaOrBool S → Option S
  | .schema s => some s
  | .boolean _ => none

/-- An OpenAPI v2 schema node, restricted to the fields the builder reads:
XRef, Format, Type.Value (the declared primitive-type list), Items.Schema
(the item-schema list), Properties.AdditionalProperties (the named-property
pairs) and AdditionalProperties (the schema-or-boolean clause). -/
inductive Schema where
  | mk (xref : String) (format : String)
       (type : Option (List String))
       (items : Option (List Schema))
       (properties : Option (List (String × Schema)))
       (additionalProperties : Option (SchemaOrBool Schema))

def Schema.xref : Schema → String
  | .mk x _ _ _ _ _ => x

def Schema.format : Schema → String
  | .mk _ f _ _ _ _ => f

def Schema.type : Schema → Option (List String)
  | .mk _ _ t _ _ _ => t

def Schema.items : Schema → Option (List Schema)
  | .mk _ _ _ i _ _ => i

def Schema.properties : Schema → Option (List (String × Schema))
  | .mk _ _ _ _ p _ => p

def Schema.additionalProperties : Schema → Option (SchemaOrBool Schema)
  | .mk _ _ _ _ _ a => a

@[simp] theorem Schema.xref_mk (x f t i p a) : (Schema.mk x f t i p a).xref = x := rfl

@[simp] theorem Schema.format_mk (x f t i p a) : (Schema.mk x f t i p a).format = f := rfl

@[simp] theorem Schema.type_mk (x f t i p a) : (Schema.mk x f t i p a).type = t := rfl

@[simp] theorem Schema.items_mk (x f t i p a) : (Schema.mk x f t i p a).items = i := rfl

@[simp] theorem Schema.properties_mk (x f t i p a) : (Schema.mk x f t i p a).properties = p := rfl

@[simp] theorem Schema.additionalProperties_mk (x f t i p a) :
    (Schema.mk x f t i p a).additionalProperties = a := rfl

/-- The oneof carried by a response schema entry: a data schema or a file schema. -/
inductive SchemaItem where
  | schema (s : Schema)
  | fileSchema

/-- Generated-getter GetSchema of the response-schema oneof. -/
def SchemaItem.getSchema : SchemaItem → Option Schema
  | .schema s => some s
  | .fileSchema => none

/-- A response object, restricted to the Schema field the builder reads. -/
structure Response where
  schema : Option SchemaItem := none

/-- The oneof stored per status code in a Responses map: a response object
or a JSON reference. -/
inductive ResponseValue where
  | response (r : Response)
  | jsonReference (ref : String)

/-- Generated-getter GetResponse of the response-value oneof. -/
def ResponseValue.getResponse : ResponseValue → Option Response
  | .response r => some r
  | .jsonReference _ => none

/-- The Responses section of an operation: status-code-keyed entries
(ResponseCode in the Go object graph). -/
structure Responses where
  responseCode : List (String × ResponseValue) := []

/-- A body parameter: a name and an optional full schema. -/
structure BodyParameter where
  name : String := ""
  schema : Option Schema := none

/-- A non-body parameter sub-schema (header, form-data, query or path):
carries its name, declared primitive type and format directly. -/
structure ParameterSubSchema where
  name : String := ""
  type : String := ""
  format : String := ""

/-- The oneof inside a non-body parameter: exactly one of the four kinds. -/
inductive NonBodyParameter where
  | header (p : ParameterSubSchema)
  | formData (p : ParameterSubSchema)
  | query (p : ParameterSubSchema)
  | path (p : ParameterSubSchema)

def NonBodyParameter.getHeaderParameterSubSchema : NonBodyParameter → Option ParameterSubSchema
  | .header p => some p
  | _ => none

def NonBodyParameter.getFormDataParameterSubSchema : NonBodyParameter → Option ParameterSubSchema
  | .formData p => some p
  | _ => none

def NonBodyParameter.getQueryParameterSubSchema : NonBodyParameter → Option ParameterSubSchema
  | .query p => some p
  | _ => none

def NonBodyParameter.getPathParameterSubSchema : NonBodyParameter → Option ParameterSubSchema
  | .path p => some p
  | _ => none

/-- The oneof inside a parameter: body or non-body. -/
inductive Parameter where
  | body (p : BodyParameter)
  | nonBody (p : NonBodyParameter)

def Parameter.getBodyParameter : Parameter → Option BodyParameter
  | .body p => some p
  | _ => none

def Parameter.getNonBodyParameter : Parameter → Option NonBodyParameter
  | .nonBody p => some p
  | _ => none

/-- The oneof stored in an operation parameter list entry: a parameter
or a JSON reference. -/
inductive ParametersItem where
  | parameter (p : Parameter)
  | jsonReference (ref : String)

/-- Generated-getter GetParameter of the parameters-item oneof. -/
def ParametersItem.getParameter : ParametersItem → Option Parameter
  | .parameter p => some p
  | .jsonReference _ => none

/-- An operation, restricted to the fields the builder reads.  The input
boundary of the specification states that every operation exposes a
response map, so Responses is embedded as a plain value. -/
structure Operation where
  operationId : String := ""
  description : String := ""
  parameters : List ParametersItem := []
  responses : Responses := {}

/-- A path item: up to one operation per HTTP verb.  All seven verb slots
of the document grammar are embedded; the builder reads only four. -/
structure PathItem where
  get : Option Operation := none
  put : Option Operation := none
  post : Option Operation := none
  delete : Option Operation := none
  options : Option Operation := none
  head : Option Operation := none
  patch : Option Operation := none

/-- The Info section: only the title is read. -/
structure Info where
  title : String := ""

/-- The Definitions section: named schema pairs, in declaration order. -/
structure Definitions where
  additionalProperties : List (String × Schema) := []

/-- The Paths section: named path items, in declaration order. -/
structure Paths where
  path : List (String × PathItem) := []

/-- The document root.  Info and Paths are message pointers in the object
graph that the builder dereferences without a nil check, so they are
embedded as Option; Definitions is nil-checked by the builder. -/
structure Document where
  info : Option Info := none
  definitions : Option Definitions := none
  paths : Option Paths := none

/-- Field position enum of the surface model (zero value first). -/
inductive Position where
  | UNSET
  | BODY
  | HEADER
  | FORMDATA
  | QUERY
  | PATH
deriving DecidableEq, Repr

/-- Type kind enum of the surface model (zero value first; the builder
only ever assigns STRUCT and MAP). -/
inductive Kind where
  | UNSET
  | STRUCT
  | MAP
deriving DecidableEq, Repr

/-- A field of a surface type.  Defaults are the Go zero values. -/
structure Field where
  name : String := ""
  type : String := ""
  valueType : String := ""
  format : String := ""
  position : Position := .UNSET
  serialize : Bool := false
deriving DecidableEq, Repr

/-- A named composite type of the surface model. -/
structure SurfaceType where
  name : String := ""
  description : String := ""
  kind : Kind := .UNSET
  fields : List Field := []
  mapType : String := ""
deriving DecidableEq, Repr

/-- A method (API operation) of the surface model. -/
structure Method where
  name : String := ""
  operation : String := ""
  path : String := ""
  method : String := ""
  description : String := ""
  parametersTypeName : String := ""
  responsesTypeName : String := ""
deriving DecidableEq, Repr

/-- The surface model being assembled. -/
structure Model where
  name : String := ""
  types : List SurfaceType := []
  methods : List Method := []
deriving DecidableEq, Repr

/-- Modelled from the spec: addField of the surface package is not in the
translated file; sections 3 and 9 of the spec describe it as an
ordered-by-insertion append of a field during type construction. -/
def addField (t : SurfaceType) (f : Field) : SurfaceType :=
  { t with fields := t.fields ++ [f] }

/-- Modelled from the spec: addType of the surface package is not in the
translated file; the spec describes it as an ordered-by-insertion append
of a type to the model. -/
def addType (m : Model) (t : SurfaceType) : Model :=
  { m with types := m.types ++ [t] }

/-- Modelled from the spec: addMethod of the surface package is not in the
translated file; the spec describes it as an ordered-by-insertion append
of a method to the model. -/
def addMethod (m : Model) (mth : Method) : Model :=
  { m with methods := m.methods ++ [mth] }

/-- Splitting of a character list at every occurrence of a separator;
always returns at least one (possibly empty) segment. -/
def splitOnChar (sep : Char) : List Char → List (List Char)
  | [] => [[]]
  | c :: cs =>
    let rest := splitOnChar sep cs
    if c = sep then [] :: rest
    else
      match rest with
      | [] => [[c]]
      | seg :: segs => (c :: seg) :: segs

/-- Modelled from the spec: typeForRef lives outside the translated file;
spec section 4.1 rule 1 describes it as normalization of a named
reference, where a "#/definitions/Foo"-style pointer becomes the bare
name "Foo" — modelled as taking the final slash-separated segment. -/
def typeForRef (ref : String) : String :=
  String.mk ((splitOnChar '/' ref.data).getLastD ref.data)

/-- Modelled from the spec: the identifier-sanitization helper lives
outside the translated file; the spec (sections 1 and 4.5) requires only
that it turns a raw operation identifier into a generator-legal
identifier.  Modelled as replacing every character that is not a letter,
digit or underscore with an underscore, which never changes the length. -/
def sanitizeOperationName (name : String) : String :=
  String.mk (name.data.map (fun c => if c.isAlphanum || c = '_' then c else '_'))

/-- Modelled from the spec: the name-synthesis helper lives outside the
translated file; spec section 4.5 describes it as lower-casing the verb,
stripping path-template braces, and concatenating path segments in order. -/
def generateOperationName (method path : String) : String :=
  String.mk (method.data.map Char.toLower ++
    ((splitOnChar '/' path.data).map
      (fun seg => seg.filter (fun c => c != '\x7b' && c != '\x7d'))).flatten)

/-- Modelled from the spec: the fallback of the type-inference engine is
fmt.Sprintf of the schema node, an opaque textual dump (spec section 4.1
rule 4 treats its exact characters as irrelevant).  Modelled as a
deterministic structural rendering that is never empty. -/
def schemaDump (s : Schema) : String :=
  "&\x7b" ++ s.xref ++ " " ++ s.format ++ " " ++
    (match s.type with
     | none => "<nil>"
     | some ts => "&\x7b" ++ String.intercalate " " ts ++ "\x7d") ++ " " ++
    (match s.items with
     | none => "<nil>"
     | some l => "&\x7b" ++ toString l.length ++ " items\x7d") ++ " " ++
    (match s.properties with
     | none => "<nil>"
     | some l => "&\x7b" ++ toString l.length ++ " properties\x7d") ++ " " ++
    (match s.additionalProperties with
     | none => "<nil>"
     | some (.schema _) => "&\x7bschema\x7d"
     | some (.boolean b) => toString b) ++ "\x7d"

/-- Modelled from the spec: the raw textual fallback for a parameter list
entry is fmt.Sprintf of the entry, again an opaque dump. -/
def paramItemDump (item : ParametersItem) : String :=
  match item with
  | .jsonReference r => "&\x7bJsonReference:" ++ r ++ "\x7d"
  | .parameter p =>
    match p with
    | .body bp => "&\x7bBodyParameter:" ++ bp.name ++ "\x7d"
    | .nonBody _ => "&\x7bNonBodyParameter\x7d"

/-- The early-return chain of typeForSchema (source lines 212-249): some
result means one of the recognized rules fired and returned; none means
control reached the final fallback line of the function. -/
def typeForSchemaRules (schema : Schema) : Option String :=
  if schema.xref ≠ "" then some (typeForRef schema.xref)
  else
    let fromType : Option String :=
      match schema.type with
      | none => none
      | some types =>
        if types = ["string"] then some "string"
        else if types = ["integer"] ∧ schema.format = "int32" then some "int32"
        else if types = ["integer"] then some "int"
        else if types = ["number"] then some "int"
        else if types = ["array"] ∧ schema.items.isSome then
          match schema.items with
          | some [item] => if item.xref ≠ "" then some ("[]" ++ typeForRef item.xref) else none
          | _ => none
        else if types = ["object"] ∧ schema.additionalProperties.isNone then
          some "map[string]interface\x7b\x7d"
        else none
    match fromType with
    | some t => some t
    | none =>
      match schema.additionalProperties with
      | none => none
      | some additionalProperties =>
        match additionalProperties.getSchema with
        | some propertySchema =>
          if propertySchema.xref ≠ "" then some ("map[string]" ++ typeForRef propertySchema.xref)
          else none
        | none => none

/-- The type-inference engine (source lines 211-252): the first matching
rule, or else the opaque textual dump of the node. -/
def typeForSchema (schema : Schema) : String :=
  (typeForSchemaRules schema).getD (schemaDump schema)

/-- The field built from one named property of a definition schema
(source lines 89-95). -/
def definitionField (pair : String × Schema) : Field :=
  { name := pair.1, type := typeForSchema pair.2, serialize := true }

/-- The definition translator (source lines 79-107).  The none result
models the nil-pointer dereference on line 101: when the schema has no
property-derived fields and its additional-properties clause holds the
boolean arm, GetSchema() is nil and reading XRef through it panics. -/
def buildTypeFromDefinition (name : String) (schema : Schema) : Option SurfaceType :=
  let t0 : SurfaceType :=
    { name := name, description := "implements the service definition of " ++ name,
      kind := .UNSET, fields := [], mapType := "" }
  let t :=
    match schema.properties with
    | none => t0
    | some props =>
      let t1 := if props.length > 0 then { t0 with kind := Kind.STRUCT } else t0
      props.foldl (fun acc pair2 => addField acc (definitionField pair2)) t1
  if t.fields.length = 0 then
    match schema.additionalProperties with
    | none => some t
    | some additionalProperties =>
      match additionalProperties.getSchema with
      | some s => some { t with kind := Kind.MAP, mapType := typeForRef s.xref }
      | none => none
  else some t

/-- The loop body of the parameter translator (source lines 133-176):
the field built from one parameter list entry, or none when the entry
holds no parameter (the JSON-reference arm). -/
def paramField (parametersItem : ParametersItem) : Option Field :=
  match parametersItem.getParameter with
  | none => none
  | some parameter =>
    let f0 : Field := { type := paramItemDump parametersItem }
    let f1 :=
      match parameter.getBodyParameter with
      | some bodyParameter =>
        { f0 with
          name := bodyParameter.name,
          type := match bodyParameter.schema with
                  | some s => typeForSchema s
                  | none => f0.type,
          position := Position.BODY }
      | none => f0
    let f2 :=
      match parameter.getNonBodyParameter with
      | some nonBodyParameter =>
        let g1 :=
          match nonBodyParameter.getHeaderParameterSubSchema with
          | some hp => { f1 with name := hp.name, type := hp.type, position := Position.HEADER }
          | none => f1
        let g2 :=
          match nonBodyParameter.getFormDataParameterSubSchema with
          | some fp => { g1 with name := fp.name, type := fp.type, position := Position.FORMDATA }
          | none => g1
        let g3 :=
          match nonBodyParameter.getQueryParameterSubSchema with
          | some qp => { g2 with name := qp.name, type := qp.type, position := Position.QUERY }
          | none => g2
        let g4 :=
          match nonBodyParameter.getPathParameterSubSchema with
          | some pp =>
            { g3 with name := pp.name, type := pp.type, format := pp.format,
                      position := Position.PATH }
          | none => g3
        g4
      | none => f1
    some { f2 with serialize := true }

/-- The fields accumulated by the parameter-translator loop, in entry order. -/
def paramFieldList : List ParametersItem → List Field
  | [] => []
  | item :: rest =>
    match paramField item with
    | some f => f :: paramFieldList rest
    | none => paramFieldList rest

/-- The parameter-holder type as constructed before the discard-if-empty
check (source lines 128-132 plus the loop). -/
def parametersType (name : String) (parameters : List ParametersItem) : SurfaceType :=
  { name := name ++ "Parameters",
    description := name ++ "Parameters" ++ " holds parameters to " ++ name,
    kind := .STRUCT, fields := paramFieldList parameters, mapType := "" }

/-- The parameter translator (source lines 127-183): registers the type
and returns its name when it has fields, otherwise leaves the model
untouched and returns the empty name. -/
def buildTypeFromParameters (model : Model) (name : String)
    (parameters : List ParametersItem) : Model × String :=
  let t := parametersType name parameters
  if t.fields.length > 0 then (addType model t, t.name) else (model, "")

/-- The loop body of the response translator (source lines 192-202): the
field built from one status-code entry, or none when the entry does not
resolve to a response object carrying a data schema. -/
def responseField (name : String) (value : ResponseValue) : Option Field :=
  match value.getResponse with
  | none => none
  | some response =>
    match response.schema with
    | none => none
    | some schemaItem =>
      match schemaItem.getSchema with
      | none => none
      | some s =>
        some { name := name, type := "*" ++ typeForSchema s,
               valueType := typeForSchema s, serialize := false }

/-- The fields accumulated by the response-translator loop, in entry order. -/
def responseFieldList : List (String × ResponseValue) → List Field
  | [] => []
  | entry :: rest =>
    match responseField entry.1 entry.2 with
    | some f => f :: responseFieldList rest
    | none => responseFieldList rest

/-- The response-holder type as constructed before the discard-if-empty
check (source lines 186-190 plus the loop). -/
def responsesType (name : String) (responses : Responses) : SurfaceType :=
  { name := name ++ "Responses",
    description := name ++ "Responses" ++ " holds responses of " ++ name,
    kind := .STRUCT, fields := responseFieldList responses.responseCode, mapType := "" }

/-- The response translator (source lines 185-209): registers the type
and returns its name when it has fields, otherwise leaves the model
untouched and returns the empty name. -/
def buildTypeFromResponses (model : Model) (name : String)
    (responses : Responses) : Model × String :=
  let t := responsesType name responses
  if t.fields.length > 0 then (addType model t, t.name) else (model, "")

/-- The name-resolution step of the method builder (source lines 116-119):
the sanitized operation identifier, or the synthesized (verb, path) name
when sanitization yields the empty string. -/
def methodNameForOperation (op : Operation) (method : String) (path : String) : String :=
  let n := sanitizeOperationName op.operationId
  if n = "" then generateOperationName method path else n

/-- The method builder (source lines 109-125): resolves the method name,
invokes the parameter and response translators (threading the model
through them), and appends the finished method. -/
def buildMethodFromOperation (model : Model) (op : Operation)
    (method : String) (path : String) : Model :=
  let name := methodNameForOperation op method path
  let pr := buildTypeFromParameters model name op.parameters
  let rr := buildTypeFromResponses pr.1 name op.responses
  addMethod rr.1
    { name := name, operation := op.operationId, path := path, method := method,
      description := op.description,
      parametersTypeName := pr.2, responsesTypeName := rr.2 }

/-- The per-path-item step of the assembler loop (source lines 61-75):
one method per present operation among the four recognized verbs, in the
order GET, POST, PUT, DELETE. -/
def buildPathItem (model : Model) (pathName : String) (v : PathItem) : Model :=
  let m1 := match v.get with
            | some op => buildMethodFromOperation model op "GET" pathName
            | none => model
  let m2 := match v.post with
            | some op => buildMethodFromOperation m1 op "POST" pathName
            | none => m1
  let m3 := match v.put with
            | some op => buildMethodFromOperation m2 op "PUT" pathName
            | none => m2
  match v.delete with
  | some op => buildMethodFromOperation m3 op "DELETE" pathName
  | none => m3

/-- The definitions pairs the assembler iterates (source lines 51-59):
empty when the Definitions section is absent. -/
def defsList (document : Document) : List (String × Schema) :=
  match document.definitions with
  | none => []
  | some d => d.additionalProperties

/-- The definitions loop of the assembler: each definition type is added
in order; a panic inside the definition translator propagates as none. -/
def buildDefinitions (model : Model) : List (String × Schema) → Option Model
  | [] => some model
  | (n, s) :: rest =>
    match buildTypeFromDefinition n s with
    | some t => buildDefinitions (addType model t) rest
    | none => none

/-- The assembler body (source lines 49-77).  Reading Path from an absent
Paths section is a nil-pointer dereference, modelled as none. -/
def build (model : Model) (document : Document) : Option Model :=
  match buildDefinitions model (defsList document) with
  | none => none
  | some model1 =>
    match document.paths with
    | none => none
    | some ps => some (ps.path.foldl (fun m pair => buildPathItem m pair.1 pair.2) model1)

/-- The model builder (source lines 36-46).  Reading Title from an absent
Info section is a nil-pointer dereference, modelled as none. -/
def buildModel (document : Document) : Option Model :=
  match document.info with
  | none => none
  | some info =>
    build { name := info.title, types := [], methods := [] } document

/-! Concrete sample inputs used by witnesses and counterexamples. -/

/-- A schema that is a bare named reference. -/
def sampleRef : Schema := .mk "#/definitions/Foo" "" none none none none

/-- A schema carrying a named reference together with an inline type
declaration, items and an additional-properties clause. -/
def sampleRefWithNoise : Schema :=
  .mk "#/definitions/Foo" "int32" (some ["object"]) (some [sampleRef])
    (some [("p", sampleRef)]) (some (.schema sampleRef))

/-- An inline string schema. -/
def sampleString : Schema := .mk "" "" (some ["string"]) none none none

/-- An anonymous inline schema with two declared primitive types, matched
by no recognized rule. -/
def sampleMulti : Schema := .mk "" "" (some ["string", "number"]) none none none

/-- A definition schema whose additional-properties clause holds the
boolean arm and which has no properties. -/
def sampleBooleanTrap : Schema := .mk "" "" none none none (some (.boolean true))

/-- A definition schema with one named property. -/
def samplePetDef : Schema := .mk "" "" none none (some [("name", sampleString)]) none

/-- A definition schema with no properties and no additional-properties clause. -/
def sampleEmptyDef : Schema := .mk "" "" none none none none

/-- A definition schema with no properties and a referenced
additional-properties schema. -/
def sampleMapDef : Schema := .mk "" "" none none none (some (.schema sampleRef))

/-- A parameter list entry holding only a JSON reference (no parameter). -/
def sampleJsonRefItem : ParametersItem := .jsonReference "#/parameters/x"

/-- A usable query parameter entry. -/
def sampleQueryItem : ParametersItem :=
  .parameter (.nonBody (.query { name := "id", type := "string", format := "" }))

/-- A response value with no schema. -/
def sampleEmptyResponse : ResponseValue := .response { schema := none }

/-- A response value carrying a referenced data schema. -/
def sampleRefResponse : ResponseValue := .response { schema := some (.schema sampleRef) }

/-- An operation with a non-empty identifier. -/
def sampleNamedOp : Operation := { operationId := "getPet" }

/-- An operation with an empty identifier. -/
def sampleAnonOp : Operation := { operationId := "" }

/-- A document whose top level is well formed (Info and Paths present)
but whose single definition triggers the boolean additional-properties
nil dereference. -/
def sampleTrapDocument : Document :=
  { info := some { title := "T" },
    definitions := some { additionalProperties := [("D", sampleBooleanTrap)] },
    paths := some { path := [] } }

/-! Helper lemmas. -/

/-- The dump of a schema node is never the empty string. -/
theorem schemaDump_ne_empty (s : Schema) : schemaDump s ≠ "" := by
  unfold schemaDump
  intro h
  have hd := congrArg String.data h
  simp [String.data_append] at hd

/-- The definitions-properties fold only appends the property fields
(stated over the record-update form that addField unfolds to). -/
theorem foldl_addField_definitionField (l : List (String × Schema)) (t : SurfaceType) :
    l.foldl (fun acc pair2 =>
        { acc with fields := acc.fields ++ [definitionField pair2] }) t =
      { t with fields := t.fields ++ l.map definitionField } := by
  induction l generalizing t with
  | nil => simp
  | cons p l ih =>
    rw [List.foldl_cons, ih]
    simp

/-! Claim theorems. -/

/-- C1: for every schema node whose named reference is non-empty, the
type-inference engine returns the normalized referenced name (typeForRef
of the reference), independent of every other field of the node. -/
theorem typeForSchema_ref_takes_precedence (s : Schema) (h : s.xref ≠ "") :
    typeForSchema s = typeForRef s.xref := by
  simp [typeForSchema, typeForSchemaRules, h]

/-- Witness for C1 at a node that also carries an inline type, items,
properties and an additional-properties clause. -/
theorem typeForSchema_ref_takes_precedence_witness :
    sampleRefWithNoise.xref ≠ "" ∧ typeForSchema sampleRefWithNoise = "Foo" := by
  refine ⟨by decide, ?_⟩
  have h := typeForSchema_ref_takes_precedence sampleRefWithNoise (by decide)
  rw [h]
  decide

/-- C2: for every schema node with no named reference and a single-entry
declared type list, the engine maps string, integer (with and without the
int32 format), number, referenced arrays and open objects as the source
rules state. -/
theorem typeForSchema_primitive_rules (s : Schema) (h : s.xref = "") :
    (s.type = some ["string"] → typeForSchema s = "string") ∧
    (s.type = some ["integer"] → s.format = "int32" → typeForSchema s = "int32") ∧
    (s.type = some ["integer"] → s.format ≠ "int32" → typeForSchema s = "int") ∧
    (s.type = some ["number"] → typeForSchema s = "int") ∧
    (∀ item : Schema, s.type = some ["array"] → s.items = some [item] → item.xref ≠ "" →
      typeForSchema s = "[]" ++ typeForRef item.xref) ∧
    (s.type = some ["object"] → s.additionalProperties = none →
      typeForSchema s = "map[string]interface\x7b\x7d") := by
  refine ⟨?_, ?_, ?_, ?_, ?_, ?_⟩
  · intro ht
    simp [typeForSchema, typeForSchemaRules, h, ht]
  · intro ht hf
    simp [typeForSchema, typeForSchemaRules, h, ht, hf]
  · intro ht hf
    simp [typeForSchema, typeForSchemaRules, h, ht, hf]
  · intro ht
    simp [typeForSchema, typeForSchemaRules, h, ht]
  · intro item ht hi hx
    simp [typeForSchema, typeForSchemaRules, h, ht, hi, hx]
  · intro ht ha
    simp [typeForSchema, typeForSchemaRules, h, ht, ha]

/-- Witness for C2: each primitive rule evaluated at a concrete node. -/
theorem typeForSchema_primitive_rules_witness :
    typeForSchema (.mk "" "" (some ["string"]) none none none) = "string" ∧
    typeForSchema (.mk "" "int32" (some ["integer"]) none none none) = "int32" ∧
    typeForSchema (.mk "" "int64" (some ["integer"]) none none none) = "int" ∧
    typeForSchema (.mk "" "" (some ["number"]) none none none) = "int" ∧
    typeForSchema (.mk "" "" (some ["array"]) (some [sampleRef]) none none) = "[]Foo" ∧
    typeForSchema (.mk "" "" (some ["object"]) none none none) =
      "map[string]interface\x7b\x7d" := by
  refine ⟨?_, ?_, ?_, ?_, ?_, ?_⟩
  · exact (typeForSchema_primitive_rules
      (.mk "" "" (some ["string"]) none none none) rfl).1 rfl
  · exact (typeForSchema_primitive_rules
      (.mk "" "int32" (some ["integer"]) none none none) rfl).2.1 rfl rfl
  · exact (typeForSchema_primitive_rules
      (.mk "" "int64" (some ["integer"]) none none none) rfl).2.2.1 rfl (by decide)
  · exact (typeForSchema_primitive_rules
      (.mk "" "" (some ["number"]) none none none) rfl).2.2.2.1 rfl
  · have h := (typeForSchema_primitive_rules
      (.mk "" "" (some ["array"]) (some [sampleRef]) none none) rfl).2.2.2.2.1
      sampleRef rfl rfl (by decide)
    rw [h]
    decide
  · exact (typeForSchema_primitive_rules
      (.mk "" "" (some ["object"]) none none none) rfl).2.2.2.2.2 rfl rfl

/-- C3: the type-inference engine is total — every node yields a string —
and a node matched by no recognized rule yields the opaque textual dump
of the node, which is never empty. -/
theorem typeForSchema_total_with_nonempty_fallback (s : Schema) :
    (∃ out, typeForSchema s = out) ∧
    (typeForSchemaRules s = none →
      typeForSchema s = schemaDump s ∧ schemaDump s ≠ "") := by
  refine ⟨⟨_, rfl⟩, fun h => ⟨?_, schemaDump_ne_empty s⟩⟩
  simp [typeForSchema, h]

/-- Witness for C3 at an anonymous node with two declared primitive types. -/
theorem typeForSchema_total_with_nonempty_fallback_witness :
    typeForSchemaRules sampleMulti = none ∧
    (typeForSchema sampleMulti = schemaDump sampleMulti ∧ schemaDump sampleMulti ≠ "") :=
  ⟨rfl, (typeForSchema_total_with_nonempty_fallback sampleMulti).2 rfl⟩

/-- Helper: the definition translator fails exactly on schemas with no
property-derived fields whose additional-properties clause holds the
boolean arm. -/
theorem buildTypeFromDefinition_none_char (name : String) (schema : Schema) :
    buildTypeFromDefinition name schema = none ↔
      ((schema.properties = none ∨ schema.properties = some []) ∧
       ∃ b, schema.additionalProperties = some (SchemaOrBool.boolean b)) := by
  rcases schema with ⟨x, f, ty, it, props, ap⟩
  rcases props with _ | ⟨_ | ⟨p, rest⟩⟩ <;>
    rcases ap with _ | ⟨s⟩ | ⟨b⟩ <;>
      simp [buildTypeFromDefinition, foldl_addField_definitionField, addField,
            SchemaOrBool.getSchema]

/-- C4 counterexample: a definition schema with no properties whose
additional-properties clause is the boolean form matches neither the
STRUCT rule nor the MAP rule, yet the translator does not return the
kind-unset zero-field Type the claim promises — it fails (Go: nil-pointer
dereference on reading XRef through a nil GetSchema result). -/
theorem buildTypeFromDefinition_boolean_counterexample :
    buildTypeFromDefinition "D" sampleBooleanTrap = none := rfl

/-- Helper: evaluation of the definition translator on a schema with at
least one named property. -/
theorem buildTypeFromDefinition_eval_props (name x f : String) (ty : Option (List String))
    (it : Option (List Schema)) (q : String × Schema) (rest : List (String × Schema))
    (ap : Option (SchemaOrBool Schema)) :
    buildTypeFromDefinition name (.mk x f ty it (some (q :: rest)) ap) =
      some { name := name,
             description := "implements the service definition of " ++ name,
             kind := Kind.STRUCT,
             fields := definitionField q :: rest.map definitionField,
             mapType := "" } := by
  simp [buildTypeFromDefinition, foldl_addField_definitionField, addField]

/-- Helper: evaluation of the definition translator on a schema with no
property-derived fields, for each shape of the additional-properties clause. -/
theorem buildTypeFromDefinition_eval_empty (name x f : String) (ty : Option (List String))
    (it : Option (List Schema)) (props : Option (List (String × Schema)))
    (ap : Option (SchemaOrBool Schema)) (hprops : props = none ∨ props = some []) :
    buildTypeFromDefinition name (.mk x f ty it props ap) =
      match ap with
      | none => some { name := name,
                       description := "implements the service definition of " ++ name,
                       kind := Kind.UNSET, fields := [], mapType := "" }
      | some (.schema s) =>
        some { name := name,
               description := "implements the service definition of " ++ name,
               kind := Kind.MAP, fields := [], mapType := typeForRef s.xref }
      | some (.boolean _) => none := by
  rcases hprops with h | h <;> subst h <;>
    cases ap with
    | none => simp [buildTypeFromDefinition, foldl_addField_definitionField, addField]
    | some a =>
      cases a with
      | schema s =>
        simp [buildTypeFromDefinition, foldl_addField_definitionField, addField,
              SchemaOrBool.getSchema]
      | boolean b =>
        simp [buildTypeFromDefinition, foldl_addField_definitionField, addField,
              SchemaOrBool.getSchema]

/-- C4 amended: for every named definition the translator returns a Type
named after the definition; with one or more properties it is STRUCT with
exactly one field per property, each field named after its property, typed
via the type-inference engine and marked serializable; with zero fields
and a schema-form additional-properties clause it is MAP with the inferred
reference; the kind-unset zero-field fallback holds when no
additional-properties clause is present, while a zero-field schema whose
clause is the boolean form makes the translator fail instead of returning
a Type. -/
theorem buildTypeFromDefinition_cases (name : String) (schema : Schema) :
    (∀ props, schema.properties = some props → props ≠ [] →
      ∃ t, buildTypeFromDefinition name schema = some t ∧
        t.name = name ∧ t.kind = Kind.STRUCT ∧
        t.fields.length = props.length ∧
        t.fields = props.map (fun pair =>
          { name := pair.1, type := typeForSchema pair.2, valueType := "",
            format := "", position := Position.UNSET, serialize := true }) ∧
        (∀ f ∈ t.fields, f.serialize = true)) ∧
    ((schema.properties = none ∨ schema.properties = some []) →
      schema.additionalProperties = none →
      buildTypeFromDefinition name schema =
        some { name := name,
               description := "implements the service definition of " ++ name,
               kind := Kind.UNSET, fields := [], mapType := "" }) ∧
    (∀ ps, (schema.properties = none ∨ schema.properties = some []) →
      schema.additionalProperties = some (.schema ps) →
      ∃ t, buildTypeFromDefinition name schema = some t ∧
        t.name = name ∧ t.kind = Kind.MAP ∧ t.mapType = typeForRef ps.xref) := by
  rcases schema with ⟨x, f, ty, it, props0, ap⟩
  refine ⟨?_, ?_, ?_⟩
  · intro props hp hne
    simp only [Schema.properties_mk] at hp
    subst hp
    cases props with
    | nil => exact absurd rfl hne
    | cons q rest =>
      rw [buildTypeFromDefinition_eval_props]
      refine ⟨_, rfl, rfl, rfl, by simp, by simp [definitionField], ?_⟩
      intro fld hf
      rcases List.mem_cons.mp hf with hf | hf
      · rw [hf]
        rfl
      · obtain ⟨pair, -, hpair⟩ := List.mem_map.mp hf
        rw [← hpair]
        rfl
  · intro hp ha
    simp only [Schema.properties_mk] at hp
    simp only [Schema.additionalProperties_mk] at ha
    subst ha
    rw [buildTypeFromDefinition_eval_empty name x f ty it props0 none hp]
  · intro ps hp ha
    simp only [Schema.properties_mk] at hp
    simp only [Schema.additionalProperties_mk] at ha
    subst ha
    rw [buildTypeFromDefinition_eval_empty name x f ty it props0 (some (.schema ps)) hp]
    exact ⟨_, rfl, rfl, rfl, rfl⟩

/-- Witness for C4: the three amended branches at concrete definitions. -/
theorem buildTypeFromDefinition_cases_witness :
    (buildTypeFromDefinition "Pet" samplePetDef).isSome ∧
    buildTypeFromDefinition "Empty" sampleEmptyDef =
      some { name := "Empty",
             description := "implements the service definition of Empty",
             kind := Kind.UNSET, fields := [], mapType := "" } ∧
    (buildTypeFromDefinition "Map" sampleMapDef).isSome := by
  refine ⟨?_, ?_, ?_⟩
  · obtain ⟨t, ht, -⟩ := (buildTypeFromDefinition_cases "Pet" samplePetDef).1
      [("name", sampleString)] rfl (by simp)
    rw [ht]
    rfl
  · have h := (buildTypeFromDefinition_cases "Empty" sampleEmptyDef).2.1 (Or.inl rfl) rfl
    rw [h]
    decide
  · obtain ⟨t, ht, -⟩ := (buildTypeFromDefinition_cases "Map" sampleMapDef).2.2
      sampleRef (Or.inl rfl) rfl
    rw [ht]
    rfl

/-- C10: the definition translator avoids the nil-pointer dereference
exactly when it is not the case that the schema has zero property-derived
fields and a boolean-form additional-properties clause; on exactly those
inputs the error branch is reached. -/
theorem buildTypeFromDefinition_nil_deref_iff (name : String) (schema : Schema) :
    buildTypeFromDefinition name schema = none ↔
      ((schema.properties = none ∨ schema.properties = some []) ∧
       ∃ b, schema.additionalProperties = some (SchemaOrBool.boolean b)) :=
  buildTypeFromDefinition_none_char name schema

/-- C5: a parameter list or response map that yields zero fields makes the
corresponding translator return the empty type name and leave the model
untouched; at least one field makes it register the synthesized type and
return its name. -/
theorem parameters_responses_empty_policy (model : Model) (name : String)
    (parameters : List ParametersItem) (responses : Responses) :
    (paramFieldList parameters = [] →
      buildTypeFromParameters model name parameters = (model, "")) ∧
    (paramFieldList parameters ≠ [] →
      buildTypeFromParameters model name parameters =
        ({ model with types := model.types ++ [parametersType name parameters] },
          name ++ "Parameters")) ∧
    (responseFieldList responses.responseCode = [] →
      buildTypeFromResponses model name responses = (model, "")) ∧
    (responseFieldList responses.responseCode ≠ [] →
      buildTypeFromResponses model name responses =
        ({ model with types := model.types ++ [responsesType name responses] },
          name ++ "Responses")) := by
  refine ⟨?_, ?_, ?_, ?_⟩
  · intro h
    simp [buildTypeFromParameters, parametersType, h]
  · intro h
    simp [buildTypeFromParameters, parametersType, addType, List.length_pos, h]
  · intro h
    simp [buildTypeFromResponses, responsesType, h]
  · intro h
    simp [buildTypeFromResponses, responsesType, addType, List.length_pos, h]

/-- Witness for C5: a reference-only parameter list and a schemaless
response map yield nothing; a usable query parameter and a schema-carrying
response register one type each. -/
theorem parameters_responses_empty_policy_witness :
    buildTypeFromParameters {} "Op" [sampleJsonRefItem] = ({}, "") ∧
    (buildTypeFromParameters {} "Op" [sampleQueryItem]).2 = "OpParameters" ∧
    (buildTypeFromParameters {} "Op" [sampleQueryItem]).1.types.length = 1 ∧
    buildTypeFromResponses {} "Op" { responseCode := [("200", sampleEmptyResponse)] } =
      ({}, "") ∧
    (buildTypeFromResponses {} "Op"
      { responseCode := [("200", sampleRefResponse)] }).2 = "OpResponses" ∧
    (buildTypeFromResponses {} "Op"
      { responseCode := [("200", sampleRefResponse)] }).1.types.length = 1 := by
  refine ⟨?_, ?_, ?_, ?_, ?_, ?_⟩
  · exact (parameters_responses_empty_policy {} "Op" [sampleJsonRefItem] {}).1 rfl
  · rw [(parameters_responses_empty_policy {} "Op" [sampleQueryItem] {}).2.1 (by decide)]
    decide
  · rw [(parameters_responses_empty_policy {} "Op" [sampleQueryItem] {}).2.1 (by decide)]
    rfl
  · exact (parameters_responses_empty_policy {} "Op" []
      { responseCode := [("200", sampleEmptyResponse)] }).2.2.1 rfl
  · rw [(parameters_responses_empty_policy {} "Op" []
      { responseCode := [("200", sampleRefResponse)] }).2.2.2 (by decide)]
    decide
  · rw [(parameters_responses_empty_policy {} "Op" []
      { responseCode := [("200", sampleRefResponse)] }).2.2.2 (by decide)]
    rfl

/-- C6: the response-translator loop produces exactly one field per
status-code entry that resolves to a response object carrying a data
schema — named after the status code, value-typed by the inference
engine, typed with the pointer wrapper, not serialized — and no field
for any other entry. -/
theorem responseFieldList_eq_filterMap (entries : List (String × ResponseValue)) :
    responseFieldList entries =
      entries.filterMap (fun entry =>
        (Option.bind (Option.bind entry.2.getResponse Response.schema)
            SchemaItem.getSchema).map
          (fun s =>
            { name := entry.1, type := "*" ++ typeForSchema s,
              valueType := typeForSchema s, format := "",
              position := Position.UNSET, serialize := false })) := by
  induction entries with
  | nil => rfl
  | cons e rest ih =>
    obtain ⟨n, v⟩ := e
    cases v with
    | jsonReference r =>
      simp [responseFieldList, responseField, ResponseValue.getResponse, ih]
    | response r =>
      rcases r with ⟨os⟩
      cases os with
      | none => simp [responseFieldList, responseField, ResponseValue.getResponse, ih]
      | some si =>
        cases si with
        | fileSchema =>
          simp [responseFieldList, responseField, ResponseValue.getResponse,
                SchemaItem.getSchema, ih]
        | schema s =>
          simp [responseFieldList, responseField, ResponseValue.getResponse,
                SchemaItem.getSchema, ih]

/-- Helper: a sanitized non-empty identifier is non-empty. -/
theorem sanitizeOperationName_ne_empty (s : String) (h : s ≠ "") :
    sanitizeOperationName s ≠ "" := by
  rcases s with ⟨data⟩
  intro hc
  apply h
  have hd := congrArg String.data hc
  simp [sanitizeOperationName] at hd
  subst hd
  rfl

/-- Helper: the parameter translator never touches the method list. -/
theorem buildTypeFromParameters_methods (model : Model) (name : String)
    (parameters : List ParametersItem) :
    (buildTypeFromParameters model name parameters).1.methods = model.methods := by
  by_cases h : 0 < (paramFieldList parameters).length
  · simp [buildTypeFromParameters, parametersType, addType, h]
  · simp [buildTypeFromParameters, parametersType, addType, h]

/-- Helper: the response translator never touches the method list. -/
theorem buildTypeFromResponses_methods (model : Model) (name : String)
    (responses : Responses) :
    (buildTypeFromResponses model name responses).1.methods = model.methods := by
  by_cases h : 0 < (responseFieldList responses.responseCode).length
  · simp [buildTypeFromResponses, responsesType, addType, h]
  · simp [buildTypeFromResponses, responsesType, addType, h]

/-- Helper: the method builder appends exactly one method, whose name is
the resolved operation name. -/
theorem buildMethodFromOperation_methods (model : Model) (op : Operation)
    (method path : String) :
    ∃ m : Method, (buildMethodFromOperation model op method path).methods =
        model.methods ++ [m] ∧ m.name = methodNameForOperation op method path := by
  refine ⟨{ name := methodNameForOperation op method path,
            operation := op.operationId, path := path, method := method,
            description := op.description,
            parametersTypeName :=
              (buildTypeFromParameters model
                (methodNameForOperation op method path) op.parameters).2,
            responsesTypeName :=
              (buildTypeFromResponses
                (buildTypeFromParameters model
                  (methodNameForOperation op method path) op.parameters).1
                (methodNameForOperation op method path) op.responses).2 }, ?_, rfl⟩
  simp [buildMethodFromOperation, addMethod, buildTypeFromParameters_methods,
        buildTypeFromResponses_methods]

/-- Helper: the method builder grows the method list by one. -/
theorem buildMethodFromOperation_methods_length (model : Model) (op : Operation)
    (method path : String) :
    (buildMethodFromOperation model op method path).methods.length =
      model.methods.length + 1 := by
  obtain ⟨m, hm, -⟩ := buildMethodFromOperation_methods model op method path
  simp [hm]

/-- C7: a non-empty operation identifier gives the method the sanitized
identifier as its name; an empty identifier gives it the name synthesized
from the verb and path, and synthesis is deterministic. -/
theorem method_name_resolution (model : Model) (op : Operation)
    (method path : String) :
    (op.operationId ≠ "" →
      ((buildMethodFromOperation model op method path).methods.getLast?).map Method.name =
        some (sanitizeOperationName op.operationId)) ∧
    (op.operationId = "" →
      ((buildMethodFromOperation model op method path).methods.getLast?).map Method.name =
        some (generateOperationName method path)) ∧
    generateOperationName method path = generateOperationName method path := by
  obtain ⟨m, hm, hname⟩ := buildMethodFromOperation_methods model op method path
  refine ⟨?_, ?_, rfl⟩
  · intro h
    rw [hm, List.getLast?_concat]
    simp [hname, methodNameForOperation, sanitizeOperationName_ne_empty _ h]
  · intro h
    rw [hm, List.getLast?_concat]
    simp [hname, methodNameForOperation, h, sanitizeOperationName]

/-- Witness for C7: a named operation keeps its sanitized identifier; an
anonymous GET on a templated path gets the synthesized name. -/
theorem method_name_resolution_witness :
    ((buildMethodFromOperation {} sampleNamedOp "GET" "/pets").methods.getLast?).map
      Method.name = some "getPet" ∧
    ((buildMethodFromOperation {} sampleAnonOp "GET" "/pets/\x7bid\x7d").methods.getLast?).map
      Method.name = some "getpetsid" := by
  constructor
  · have h := (method_name_resolution {} sampleNamedOp "GET" "/pets").1 (by decide)
    rw [h]
    decide
  · have h := (method_name_resolution {} sampleAnonOp "GET" "/pets/\x7bid\x7d").2.1 rfl
    rw [h]
    decide

/-- C8: a path item contributes exactly one method per present operation
among GET, POST, PUT and DELETE, and a path item exposing only a PATCH
operation contributes no method at all. -/
theorem path_item_builds_recognized_verbs (model : Model) (pathName : String)
    (v : PathItem) :
    ((buildPathItem model pathName v).methods.length =
      model.methods.length +
        ((if v.get.isSome then 1 else 0) + (if v.post.isSome then 1 else 0) +
         (if v.put.isSome then 1 else 0) + (if v.delete.isSome then 1 else 0))) ∧
    (∀ op : Operation, buildPathItem model pathName { patch := some op } = model) := by
  constructor
  · rcases v with ⟨g, pu, po, de, o, hd, pa⟩
    cases g <;> cases po <;> cases pu <;> cases de <;>
      simp [buildPathItem, buildMethodFromOperation_methods_length]
  · intro op
    rfl

/-- The input shape on which the definition translator dereferences a nil
schema pointer: no property-derived fields and a boolean-form
additional-properties clause. -/
def definitionTrap (s : Schema) : Prop :=
  (s.properties = none ∨ s.properties = some []) ∧
  ∃ b, s.additionalProperties = some (SchemaOrBool.boolean b)

/-- Helper: the definitions loop succeeds exactly when no definition
schema is of the trapping shape. -/
theorem buildDefinitions_isSome_iff (l : List (String × Schema)) (model : Model) :
    (buildDefinitions model l).isSome ↔ ∀ p ∈ l, ¬ definitionTrap p.2 := by
  induction l generalizing model with
  | nil => simp [buildDefinitions]
  | cons p rest ih =>
    obtain ⟨n, s⟩ := p
    cases hbd : buildTypeFromDefinition n s with
    | none =>
      have htrap : definitionTrap s :=
        (buildTypeFromDefinition_none_char n s).mp hbd
      simp [buildDefinitions, hbd, htrap]
    | some t =>
      have htrap : ¬ definitionTrap s := by
        intro hc
        rw [(buildTypeFromDefinition_none_char n s).mpr hc] at hbd
        exact Option.noConfusion hbd
      simp [buildDefinitions, hbd, ih, htrap]

/-- C9 counterexample: a document whose top level is fully well formed
(Info and Paths both present) on which the translation nevertheless
fails, because one definition triggers the boolean additional-properties
nil dereference — a second failure class beyond malformed top-level
documents. -/
theorem buildModel_extra_failure_counterexample :
    sampleTrapDocument.info.isSome = true ∧ sampleTrapDocument.paths.isSome = true ∧
    buildModel sampleTrapDocument = none :=
  ⟨rfl, rfl, rfl⟩

/-- C9 amended: the translation returns a complete model exactly when the
top level is well formed (Info and Paths present) and additionally no
definition schema has the trapping shape (zero property-derived fields
with a boolean-form additional-properties clause); every failure is
atomic — none is returned, never a partial model. -/
theorem buildModel_isSome_iff (document : Document) :
    (buildModel document).isSome ↔
      (document.info.isSome ∧ document.paths.isSome ∧
        ∀ p ∈ defsList document, ¬ definitionTrap p.2) := by
  cases hinfo : document.info with
  | none => simp [buildModel, hinfo]
  | some info =>
    cases hbd : buildDefinitions { name := info.title, types := [], methods := [] }
        (defsList document) with
    | none =>
      have h1 : ¬ ∀ p ∈ defsList document, ¬ definitionTrap p.2 := by
        rw [← buildDefinitions_isSome_iff (defsList document)
          { name := info.title, types := [], methods := [] }]
        simp [hbd]
      constructor
      · intro habs
        exfalso
        simp [buildModel, build, hinfo, hbd] at habs
      · rintro ⟨-, -, hall⟩
        exact absurd hall h1
    | some model1 =>
      have h1 : ∀ p ∈ defsList document, ¬ definitionTrap p.2 := by
        rw [← buildDefinitions_isSome_iff (defsList document)
          { name := info.title, types := [], methods := [] }]
        simp [hbd]
      cases hp : document.paths with
      | none => simp [buildModel, build, hinfo, hbd, hp, h1]
      | some ps =>
        simp [buildModel, build, hinfo, hbd, hp, h1]
        exact fun a b hmem => h1 (a, b) hmem

end Gnostic
